import Mathlib

/-!
Shallow embedding of the chatsearch natural-language-to-SQL gateway.

Sources embedded here:
* `src/services/bigquery.js` (first part): `validateQuery`, `executeQuery`,
  `getTableSchema`, `listTables`, `getDatasetSchema`;
  (second part, the earlier generation of the Gemini service, embedded under
  the `Legacy` prefix): `generateSQLQuery`, `formatResponse`,
  `processGeneralQuestion`, `requiresDatabaseQuery`, `processMessage`.
* `src/unnamed/part_000` (the current Gemini service): `generateSQLQuery`,
  `formatResponse`, `processGeneralQuestion`, `requiresDatabaseQuery`,
  `processMessage`.
* `src/server.js` (third part, `routes/chat.js`): `getSchema` and its
  module-level schema cache.

External collaborators (the Gemini LLM, the BigQuery SDK, `JSON.parse`)
are modelled as explicit oracle parameters of type `Except String _`:
`.ok` is a normal return, `.error` is a thrown exception carrying
`error.message`.  JavaScript `try/catch` becomes a `match` on the
`Except`-valued body.  Warehouse calls are instrumented: functions that may
reach the warehouse also return the list of SQL strings actually issued.
-/

namespace ChatSearch

/-- A result row, as the BigQuery SDK returns it: a mapping from column
names to (stringified) values. -/
abbrev Row := List (String × String)

/-- JavaScript whitespace, the characters removed by `String.prototype.trim`
that can plausibly occur here. -/
def isJsSpace (c : Char) : Bool :=
  c == ' ' || c == '\t' || c == '\n' || c == '\r' || c == '\x0b' || c == '\x0c'

/-- Model of JavaScript `s.trim()`: drop whitespace from both ends. -/
def jsTrim (s : String) : String :=
  ⟨((s.data.dropWhile isJsSpace).reverse.dropWhile isJsSpace).reverse⟩

/-- Model of JavaScript `s.toUpperCase()` (ASCII letters; the validator's
keywords are all ASCII). -/
def jsUpper (s : String) : String :=
  ⟨s.data.map Char.toUpper⟩

/-- `listContainsAux pat l` is true when `pat` occurs as a contiguous
sublist of `l`; model of JavaScript `l.includes(pat)` on strings. -/
def listContainsAux (pat : List Char) : List Char → Bool
  | [] => pat.isEmpty
  | c :: rest => pat.isPrefixOf (c :: rest) || listContainsAux pat rest

/-- Model of JavaScript `s.includes(pat)`. -/
def containsSubstr (s pat : String) : Bool :=
  listContainsAux pat.data s.data

/-- Model of JavaScript `s.startsWith(pre)`. -/
def jsStartsWith (s pre : String) : Bool :=
  pre.data.isPrefixOf s.data

/-- `src/services/bigquery.js` lines 49-59: the forbidden-command list of
`validateQuery`. -/
def forbiddenCommands : List String :=
  ["DROP", "DELETE", "UPDATE", "INSERT", "ALTER", "CREATE",
   "TRUNCATE", "GRANT", "REVOKE"]

/-- `src/services/bigquery.js` lines 45-74, `validateQuery(sql)`:
uppercase the input, reject when any forbidden command occurs as a
substring, reject when the trimmed uppercase form does not start with
`SELECT`, accept otherwise.  The source's for-loop with early `return
false` is the `List.any`. -/
def validateQuery (sql : String) : Bool :=
  let upperSQL := jsUpper sql
  if forbiddenCommands.any (fun cmd => containsSubstr upperSQL cmd) then
    false
  else
    jsStartsWith (jsTrim upperSQL) "SELECT"

/-- `src/services/bigquery.js` lines 104-117: the `catch` block of
`executeQuery`.  Every error thrown inside the `try` body passes through
this translation: three specific BigQuery error signals are rewritten to
user-facing messages, everything else gets the generic
`Erro ao consultar dados:` wrapper. -/
def translateBigQueryError (msg : String) : String :=
  if containsSubstr msg "Not found: Table" then
    "Tabela não encontrada no BigQuery. Verifique o nome da tabela."
  else if containsSubstr msg "Syntax error" then
    "Erro de sintaxe na query SQL. Por favor, reformule sua pergunta."
  else if containsSubstr msg "Permission denied" || containsSubstr msg "Access Denied" then
    "Sem permissão para acessar os dados. Verifique as credenciais e permissões da service account."
  else
    "Erro ao consultar dados: " ++ msg

/-- `src/services/bigquery.js` lines 81-118, `executeQuery(sql)`.
`configured` models `bigquery && credentialsConfigured`; `warehouse` is the
BigQuery SDK oracle (`bigquery.query`).  The second component of the result
is the list of SQL strings actually issued to the warehouse client.  Both
guard throws happen inside the `try`, so they too pass through the `catch`
translation. -/
def executeQuery (configured : Bool)
    (warehouse : String → Except String (List Row)) (sql : String) :
    Except String (List Row) × List String :=
  if !configured then
    (.error (translateBigQueryError
      "BigQuery não está configurado. Verifique se as credenciais foram definidas nas variáveis de ambiente."), [])
  else if !validateQuery sql then
    (.error (translateBigQueryError
      "Query SQL não permitida. Apenas comandos SELECT são aceitos."), [])
  else
    match warehouse sql with
    | .ok rows => (.ok rows, [sql])
    | .error e => (.error (translateBigQueryError e), [sql])

/-- A raw schema field as the BigQuery metadata service reports it
(`metadata.schema.fields` entries): `mode` and `description` may be
absent. -/
structure RawField where
  name : String
  type : String
  mode : Option String
  description : Option String
deriving DecidableEq, Repr

/-- A field of a table summary, after `src/services/bigquery.js` line 133's
mapping (`description: field.description || ''`). -/
structure FieldInfo where
  name : String
  type : String
  mode : Option String
  description : String
deriving DecidableEq, Repr

/-- The value `getTableSchema` builds at `src/services/bigquery.js`
lines 131-139. -/
structure TableSchema where
  tableName : String
  fields : List FieldInfo
deriving DecidableEq, Repr

/-- The value `getDatasetSchema` builds at `src/services/bigquery.js`
lines 179-183; `tables` is an insertion-ordered mapping from table name to
its schema. -/
structure DatasetSchema where
  dataset : String
  project : String
  tables : List (String × TableSchema)
deriving DecidableEq, Repr

/-- `src/services/bigquery.js` lines 125-144, `getTableSchema(tableName)`.
`fetchMeta` is the metadata-service oracle (`table.getMetadata`); a throw
is caught and rewritten to the per-table error message. -/
def getTableSchema (fetchMeta : String → Except String (List RawField))
    (tableName : String) : Except String TableSchema :=
  match fetchMeta tableName with
  | .ok rawFields =>
      .ok ⟨tableName,
           rawFields.map (fun f => ⟨f.name, f.type, f.mode, f.description.getD ""⟩)⟩
  | .error _ =>
      .error ("Não foi possível obter informações da tabela " ++ tableName)

/-- `src/services/bigquery.js` lines 171-177: the per-table loop of
`getDatasetSchema`.  A failing `getTableSchema` is caught and the table is
skipped; a succeeding one is inserted under its name. -/
def buildTables (fetchMeta : String → Except String (List RawField)) :
    List String → List (String × TableSchema)
  | [] => []
  | n :: rest =>
    match getTableSchema fetchMeta n with
    | .ok ts => (n, ts) :: buildTables fetchMeta rest
    | .error _ => buildTables fetchMeta rest

/-- `src/services/bigquery.js` lines 166-188, `getDatasetSchema()`.
`listResult` is the outcome of `listTables()`; if it throws, the outer
`catch` rewrites the error.  `dataset` and `project` model the
`BIGQUERY_DATASET` / `GCP_PROJECT_ID` environment variables. -/
def getDatasetSchema (dataset project : String)
    (listResult : Except String (List String))
    (fetchMeta : String → Except String (List RawField)) :
    Except String DatasetSchema :=
  match listResult with
  | .ok tableNames => .ok ⟨dataset, project, buildTables fetchMeta tableNames⟩
  | .error _ => .error "Não foi possível obter o schema do dataset"

/-- `src/server.js` third part (`routes/chat.js`) lines 304-306: the
module-level schema cache slot. -/
structure SchemaCacheState where
  cachedSchema : Option DatasetSchema
  schemaLastUpdated : Option Nat
deriving DecidableEq, Repr

/-- `routes/chat.js` line 306: one hour in milliseconds. -/
def SCHEMA_CACHE_DURATION : Nat := 3600000

/-- `routes/chat.js` lines 311-333, `getSchema()`.  `now` models
`Date.now()`, `fetch` the `bigqueryService.getDatasetSchema()` call.
Returns the result, the updated cache slot, and the number of network
fetches performed (0 or 1).  On a fetch failure a stale cache entry is
served as a fallback; otherwise the error propagates. -/
def getSchema (now : Nat) (fetch : Except String DatasetSchema)
    (st : SchemaCacheState) :
    Except String DatasetSchema × SchemaCacheState × Nat :=
  let hit :=
    match st.cachedSchema, st.schemaLastUpdated with
    | some _, some t => decide (now - t < SCHEMA_CACHE_DURATION)
    | _, _ => false
  match st.cachedSchema, hit with
  | some sch, true => (.ok sch, st, 0)
  | _, _ =>
    match fetch with
    | .ok sch => (.ok sch, ⟨some sch, some now⟩, 1)
    | .error e =>
      match st.cachedSchema with
      | some old => (.ok old, st, 1)
      | none => (.error e, st, 1)

/-- JSON values, as `JSON.parse` produces them. -/
inductive Json where
  | null : Json
  | bool : Bool → Json
  | num : Int → Json
  | str : String → Json
  | arr : List Json → Json
  | obj : List (String × Json) → Json

/-- JavaScript `kvs.requires_db === true` on a parsed object: true exactly
when the field is present with the boolean value `true`. -/
def jsonFieldIsTrue (kvs : List (String × Json)) (k : String) : Bool :=
  match kvs.find? (fun kv => kv.1 == k) with
  | some (_, Json.bool true) => true
  | _ => false

/-- Model of a JavaScript global regex replacement by the empty string,
`s.replace(/pat(\n)?/g, '')`, with `optNl` choosing whether the pattern
carries an optional trailing newline (the old service used `\n?`, the
current one does not).  The scan is left to right, non-overlapping.  The
fuel argument equals the input length; every step consumes at least one
character, so fuel never runs out on the actual call. -/
def stripMatchesAux (pat : List Char) (optNl : Bool) :
    Nat → List Char → List Char
  | 0, l => l
  | _ + 1, [] => []
  | fuel + 1, c :: rest =>
    if pat.isPrefixOf (c :: rest) then
      let remaining := rest.drop (pat.length - 1)
      let remaining :=
        if optNl then
          match remaining with
          | '\n' :: r => r
          | r => r
        else remaining
      stripMatchesAux pat optNl fuel remaining
    else
      c :: stripMatchesAux pat optNl fuel rest

/-- Model of `s.replace(/pat(\n)?/g, '')` (see `stripMatchesAux`). -/
def stripAll (pat : String) (optNl : Bool) (s : String) : String :=
  ⟨stripMatchesAux pat.data optNl s.data.length s.data⟩

/-- `src/unnamed/part_000` lines 141-146: the reply cleanup of the current
`generateSQLQuery` — `response.text().trim()`, then
`.replace(/```sql/g, '').replace(/```/g, '').trim()`. -/
def stripReply (text : String) : String :=
  jsTrim (stripAll "```" false (stripAll "```sql" false (jsTrim text)))

/-- `src/unnamed/part_000` lines 89-158, the current `generateSQLQuery`.
`llm` is the oracle for `getModelName()` plus `model.generateContent(...)`:
`.ok text` is the raw model reply, `.error e` any throw in that chain.
The stripped reply is checked for emptiness and the `ERRO` sentinel: both
throw, and every throw is wrapped by the outer `catch` with the
`Erro ao gerar query:` prefix (an empty underlying message falls back to
`desconhecido`, the source's `error.message ? ... : 'desconhecido'`).
No validator is invoked here. -/
def generateSQLQuery (llm : Except String String) : Except String String :=
  let body : Except String String :=
    match llm with
    | .error e => .error e
    | .ok text =>
      let sqlQuery := stripReply text
      if sqlQuery == "" || jsStartsWith sqlQuery "ERRO" then
        .error ("IA não conseguiu gerar query válida: " ++
          (if sqlQuery == "" then "resposta vazia" else sqlQuery))
      else
        .ok sqlQuery
  match body with
  | .ok s => .ok s
  | .error e =>
      .error ("Erro ao gerar query: " ++ (if e == "" then "desconhecido" else e))

/-- Model of `JSON.stringify` on a single row. -/
def stringifyRow (r : Row) : String :=
  "\x7b" ++
    String.intercalate ","
      (r.map (fun kv => "\"" ++ kv.1 ++ "\":\"" ++ kv.2 ++ "\"")) ++
  "\x7d"

/-- Model of `JSON.stringify(queryResults)` on the list of rows: a
deterministic function of the rows. -/
def stringifyRows (rows : List Row) : String :=
  "[" ++ String.intercalate "," (rows.map stringifyRow) ++ "]"

/-- `src/unnamed/part_000` lines 163-184, the current `formatResponse`.
Any throw in the `getModelName` / `generateContent` chain (oracle `llm`)
is caught and replaced by the stringified dump of the raw rows, so the
function always returns `.ok`. -/
def formatResponse (question : String) (rows : List Row)
    (llm : Except String String) : Except String String :=
  match llm with
  | .ok t => .ok (jsTrim t)
  | .error _ => .ok ("Aqui estão os dados encontrados: " ++ stringifyRows rows)

/-- `src/unnamed/part_000` lines 189-202, the current
`processGeneralQuestion`: on any throw the apology fallback string is
returned, never an error. -/
def processGeneralQuestion (llm : Except String String) : String :=
  match llm with
  | .ok t => jsTrim t
  | .error _ => "Desculpe, estou tendo dificuldades para responder agora."

/-- JavaScript property access `json.requires_db === true` on the value
`JSON.parse` produced: on `null` the access itself throws a `TypeError`
(caught by the enclosing `catch`); on a non-object it is `undefined`,
so the strict comparison is `false`; on an object it looks the field up. -/
def requiresDbField : Json → Except String Bool
  | .null => .error "TypeError: cannot read properties of null"
  | .obj kvs => .ok (jsonFieldIsTrue kvs "requires_db")
  | _ => .ok false

/-- `src/unnamed/part_000` lines 207-229, the current
`requiresDatabaseQuery`.  `llm` is the classification-reply oracle,
`parse` the `JSON.parse` oracle.  Any throw — model call, JSON parse, or
the property access on `null` — is caught and replaced by the
message-length heuristic `userQuestion.length > 10`. -/
def requiresDatabaseQuery (question : String) (llm : Except String String)
    (parse : String → Except String Json) : Bool :=
  let body : Except String Bool :=
    match llm with
    | .error e => .error e
    | .ok text =>
      match parse text with
      | .error e => .error e
      | .ok json => requiresDbField json
  match body with
  | .ok b => b
  | .error _ => decide (question.length > 10)

/-- `src/unnamed/part_000` lines 240-258: the structured outcome object of
`processMessage` (and of the legacy `processMessage` in
`src/services/bigquery.js`).  Fields absent from a given return-object
literal are `none`. -/
structure ChatOutcome where
  success : Bool
  message : String
  sql : Option String
  data : Option (List Row)
  type : Option String
  error : Option String
deriving DecidableEq, Repr

/-- The collaborator behaviours `processMessage` (current version) is
exposed to: one oracle per external call chain, plus the executor passed
in as `executeQueryFunc`.  The executor is instrumented: it also returns
the list of SQL strings it issued to the warehouse. -/
structure Collab where
  classifierLLM : Except String String
  classifierParse : String → Except String Json
  generalLLM : Except String String
  generatorLLM : Except String String
  executor : String → Except String (List Row) × List String
  formatterLLM : Except String String

/-- `src/unnamed/part_000` lines 234-263, the current `processMessage`.
The whole body is one `try`; any stage's throw lands in the `catch`,
which returns `(success:false, message:'Erro interno ao processar IA.',
error: error.message)`.  The second component of the result is the list
of SQL strings issued to the warehouse during the call. -/
def processMessage (question : String) (c : Collab) :
    ChatOutcome × List String :=
  let needsDatabase :=
    requiresDatabaseQuery question c.classifierLLM c.classifierParse
  if !needsDatabase then
    (⟨true, processGeneralQuestion c.generalLLM, none, none, some "general", none⟩, [])
  else
    match generateSQLQuery c.generatorLLM with
    | .error e =>
        (⟨false, "Erro interno ao processar IA.", none, none, none, some e⟩, [])
    | .ok sqlQuery =>
      if jsStartsWith sqlQuery "ERRO" then
        (⟨false, sqlQuery, none, none, some "error", none⟩, [])
      else
        match c.executor sqlQuery with
        | (.error e, issued) =>
            (⟨false, "Erro interno ao processar IA.", none, none, none, some e⟩, issued)
        | (.ok rows, issued) =>
          match formatResponse question rows c.formatterLLM with
          | .error e =>
              (⟨false, "Erro interno ao processar IA.", none, none, none, some e⟩, issued)
          | .ok formatted =>
              (⟨true, formatted, some sqlQuery, some rows, some "data", none⟩, issued)

/-- `src/services/bigquery.js` lines 285-288: the reply cleanup of the
legacy `generateSQLQuery` — `.trim()`, then
`.replace(/```sql\n?/g, '').replace(/```\n?/g, '').trim()`. -/
def legacyStripReply (text : String) : String :=
  jsTrim (stripAll "```" true (stripAll "```sql" true (jsTrim text)))

/-- `src/services/bigquery.js` lines 240-295, the legacy
`generateSQLQuery`.  `hasApiKey` models `process.env.GEMINI_API_KEY`;
`llm` is the `model.generateContent` oracle.  The stripped reply is
returned as-is — no emptiness check, no sentinel check, no validator.
The `catch` replaces any throw with the fixed message. -/
def legacyGenerateSQLQuery (hasApiKey : Bool) (llm : Except String String) :
    Except String String :=
  let body : Except String String :=
    if !hasApiKey then
      .error "GEMINI_API_KEY não está configurada. Configure no painel do Render."
    else
      match llm with
      | .error e => .error e
      | .ok text => .ok (legacyStripReply text)
  match body with
  | .ok s => .ok s
  | .error _ => .error "Erro ao processar sua pergunta com IA"

/-- `src/services/bigquery.js` lines 303-333, the legacy `formatResponse`:
unlike the current one, a throw is rethrown as
`Erro ao formatar resposta`. -/
def legacyFormatResponse (llm : Except String String) : Except String String :=
  match llm with
  | .ok t => .ok (jsTrim t)
  | .error _ => .error "Erro ao formatar resposta"

/-- `src/services/bigquery.js` lines 340-365, the legacy
`processGeneralQuestion`: a throw is rethrown as
`Erro ao processar sua pergunta`. -/
def legacyProcessGeneralQuestion (llm : Except String String) :
    Except String String :=
  match llm with
  | .ok t => .ok (jsTrim t)
  | .error _ => .error "Erro ao processar sua pergunta"

/-- `src/services/bigquery.js` lines 372-407, the legacy
`requiresDatabaseQuery`: lexical scan of the uppercased trimmed reply for
`SIM`; on any throw, fail open to `true`. -/
def legacyRequiresDatabaseQuery (llm : Except String String) : Bool :=
  match llm with
  | .ok t => containsSubstr (jsUpper (jsTrim t)) "SIM"
  | .error _ => true

/-- The collaborator behaviours of the legacy `processMessage`. -/
structure LegacyCollab where
  hasApiKey : Bool
  classifierLLM : Except String String
  generalLLM : Except String String
  generatorLLM : Except String String
  executor : String → Except String (List Row) × List String
  formatterLLM : Except String String

/-- `src/services/bigquery.js` line 466: the legacy `processMessage`
catch's error field, `(error && error.message) ? error.message :
'Erro desconhecido'`. -/
def legacyCatchError (e : String) : String :=
  if e == "" then "Erro desconhecido" else e

/-- `src/services/bigquery.js` lines 416-469, the legacy `processMessage`.
The sentinel branch checks `sqlQuery.includes('ERRO:')` and returns
`(success:false, message:sqlQuery, sql:null, data:null, type:'error')`
without calling the executor; the `catch` returns the generic failure
with `message:'Erro ao processar sua pergunta com IA'` and the underlying
`error.message` (see `legacyCatchError`). -/
def legacyProcessMessage (question : String) (c : LegacyCollab) :
    ChatOutcome × List String :=
  let needsDatabase := legacyRequiresDatabaseQuery c.classifierLLM
  if !needsDatabase then
    match legacyProcessGeneralQuestion c.generalLLM with
    | .error e =>
        (⟨false, "Erro ao processar sua pergunta com IA", none, none, none,
          some (legacyCatchError e)⟩, [])
    | .ok response =>
        (⟨true, response, none, none, some "general", none⟩, [])
  else
    match legacyGenerateSQLQuery c.hasApiKey c.generatorLLM with
    | .error e =>
        (⟨false, "Erro ao processar sua pergunta com IA", none, none, none,
          some (legacyCatchError e)⟩, [])
    | .ok sqlQuery =>
      if containsSubstr sqlQuery "ERRO:" then
        (⟨false, sqlQuery, none, none, some "error", none⟩, [])
      else
        match c.executor sqlQuery with
        | (.error e, issued) =>
            (⟨false, "Erro ao processar sua pergunta com IA", none, none, none,
              some (legacyCatchError e)⟩, issued)
        | (.ok rows, issued) =>
          match legacyFormatResponse c.formatterLLM with
          | .error e =>
              (⟨false, "Erro ao processar sua pergunta com IA", none, none, none,
                some (legacyCatchError e)⟩, issued)
          | .ok formatted =>
              (⟨true, formatted, some sqlQuery, some rows, some "data", none⟩, issued)

/-- Replace the executor of a `Collab` (used to connect `processMessage`
to the instrumented `executeQuery`). -/
def withExecutor (c : Collab)
    (ex : String → Except String (List Row) × List String) : Collab :=
  ⟨c.classifierLLM, c.classifierParse, c.generalLLM, c.generatorLLM, ex,
   c.formatterLLM⟩

/-- Whether an `Except` is a success. -/
def exceptIsOk {ε α : Type} : Except ε α → Bool
  | .ok _ => true
  | .error _ => false

/-- A concrete collaborator behaviour: the classifier replies with JSON
demanding a lookup, and the generator's model call throws. -/
def generatorFailsCollab : Collab :=
  ⟨Except.ok "j",
   fun _ => Except.ok (Json.obj [("requires_db", Json.bool true)]),
   Except.ok "hi", Except.error "boom",
   fun _ => (Except.ok [], []), Except.ok "fmt"⟩

/-
## Theorems
-/

example : validateQuery "SELECT * FROM t" = true := by decide
example : validateQuery "select * from t" = true := by decide
example : validateQuery "DROP TABLE t" = false := by decide
example : validateQuery "SELECT * FROM t; DELETE FROM t" = false := by decide
example : validateQuery "   select 1" = true := by decide

/-- Helper: every SQL string `executeQuery` actually issues to the
warehouse client passed validation. -/
theorem executeQuery_issued_valid (configured : Bool)
    (warehouse : String → Except String (List Row)) (sql q : String)
    (hq : q ∈ (executeQuery configured warehouse sql).2) :
    validateQuery q = true := by
  unfold executeQuery at hq
  by_cases hc : configured
  · by_cases hv : validateQuery sql
    · simp only [hc, hv, Bool.not_true, Bool.false_eq_true, if_false] at hq
      cases h : warehouse sql <;> rw [h] at hq <;>
        simp only [List.mem_singleton] at hq <;> subst hq <;> exact hv
    · simp only [Bool.not_eq_true] at hv
      simp [hc, hv] at hq
  · simp only [Bool.not_eq_true] at hc
    simp [hc] at hq

/-- C2: `validateQuery(s)` is true if and only if the uppercased form of
`s` contains none of the nine forbidden keywords as a substring and the
trimmed uppercased form starts with `SELECT`.  (Purity holds by
construction: the embedding is a function of `s` alone, mirroring the
source's lack of I/O and state.) -/
theorem validateQuery_iff_safe (s : String) :
    validateQuery s = true ↔
      ((∀ cmd ∈ forbiddenCommands, containsSubstr (jsUpper s) cmd = false) ∧
       jsStartsWith (jsTrim (jsUpper s)) "SELECT" = true) := by
  unfold validateQuery
  by_cases h : forbiddenCommands.any (fun cmd => containsSubstr (jsUpper s) cmd) = true
  · simp only [h, if_true, Bool.false_eq_true, false_iff]
    rintro ⟨hall, -⟩
    rw [List.any_eq_true] at h
    obtain ⟨cmd, hmem, hcmd⟩ := h
    rw [hall cmd hmem] at hcmd
    exact Bool.false_ne_true hcmd
  · simp only [h, if_false]
    constructor
    · intro hsel
      refine ⟨fun cmd hmem => ?_, hsel⟩
      by_contra hcontra
      have hcmd : containsSubstr (jsUpper s) cmd = true := by
        cases hval : containsSubstr (jsUpper s) cmd
        · exact absurd hval hcontra
        · rfl
      exact h (List.any_eq_true.mpr ⟨cmd, hmem, hcmd⟩)
    · rintro ⟨-, hsel⟩
      exact hsel

/-- C1: a string reaches the warehouse client only after passing
`validateQuery`.  First conjunct: when `validateQuery sql` is false,
`executeQuery` throws and issues no warehouse call at all.  Second
conjunct: when `processMessage` is wired to `executeQuery` (as
`routes/chat.js` wires it), every SQL string issued to the warehouse
during the call passed validation — the orchestrator's only path to the
executor goes through the guard. -/
theorem executeQuery_guard_blocks_unvalidated_sql :
    (∀ (configured : Bool) (warehouse : String → Except String (List Row))
        (sql : String), validateQuery sql = false →
        (executeQuery configured warehouse sql).2 = [] ∧
        ∃ e, (executeQuery configured warehouse sql).1 = Except.error e) ∧
    (∀ (question : String) (c : Collab) (configured : Bool)
        (warehouse : String → Except String (List Row)) (s : String),
        s ∈ (processMessage question
              (withExecutor c (executeQuery configured warehouse))).2 →
        validateQuery s = true) := by
  constructor
  · intro configured warehouse sql hv
    unfold executeQuery
    by_cases hc : configured
    · simp [hc, hv]
    · simp only [Bool.not_eq_true] at hc
      simp [hc]
  · intro question c configured warehouse s hs
    unfold processMessage withExecutor at hs
    by_cases hneeds :
        requiresDatabaseQuery question c.classifierLLM c.classifierParse
    · simp only [hneeds, Bool.not_true, Bool.false_eq_true, if_false] at hs
      cases hgen : generateSQLQuery c.generatorLLM with
      | error e => rw [hgen] at hs; simp at hs
      | ok sqlQuery =>
        rw [hgen] at hs
        by_cases hsent : jsStartsWith sqlQuery "ERRO"
        · simp [hsent] at hs
        · simp only [Bool.not_eq_true] at hsent
          simp only [hsent, Bool.false_eq_true, if_false] at hs
          rcases hex : executeQuery configured warehouse sqlQuery with ⟨r, issued⟩
          rw [hex] at hs
          have hmem : s ∈ issued := by
            cases r with
            | error e =>
              dsimp only at hs; exact hs
            | ok rows =>
              dsimp only at hs
              cases hfmt : formatResponse question rows c.formatterLLM with
              | error e => rw [hfmt] at hs; exact hs
              | ok formatted => rw [hfmt] at hs; exact hs
          refine executeQuery_issued_valid configured warehouse sqlQuery s ?_
          rw [hex]
          exact hmem
    · simp only [Bool.not_eq_true] at hneeds
      simp [hneeds] at hs

/-- C1 witness: a concrete unsafe query (`DROP TABLE t`) is rejected by a
configured executor without any warehouse call. -/
theorem executeQuery_guard_blocks_unvalidated_sql_witness :
    (executeQuery true (fun _ => Except.ok ([] : List Row)) "DROP TABLE t").2 = [] ∧
    ∃ e, (executeQuery true (fun _ => Except.ok ([] : List Row)) "DROP TABLE t").1 =
      Except.error e :=
  executeQuery_guard_blocks_unvalidated_sql.1 true
    (fun _ => Except.ok []) "DROP TABLE t" (by decide)

/-- C4: `processMessage` returns a structured outcome for every input and
every collaborator behaviour (totality is the return type, mirroring the
all-enclosing try/catch), and every outcome satisfies the ChatOutcome
invariant: `success=false` implies `type="error"` or an error field is
present; `type="data"` implies both `sql` and `data` are non-null.
Moreover, every failure outside the sentinel branch is exactly the
catch-all conversion `(success:false, message:'Erro interno ao processar
IA.', error: <underlying message>)`. -/
theorem processMessage_outcome_invariant (question : String) (c : Collab) :
    ((processMessage question c).1.success = false →
      (processMessage question c).1.type = some "error" ∨
      (processMessage question c).1.error ≠ none) ∧
    ((processMessage question c).1.type = some "data" →
      (processMessage question c).1.sql ≠ none ∧
      (processMessage question c).1.data ≠ none) ∧
    ((processMessage question c).1.success = false →
      (processMessage question c).1.type = some "error" ∨
      ∃ e, (processMessage question c).1 =
        ⟨false, "Erro interno ao processar IA.", none, none, none, some e⟩) := by
  unfold processMessage
  by_cases hneeds :
      requiresDatabaseQuery question c.classifierLLM c.classifierParse
  · simp only [hneeds, Bool.not_true, Bool.false_eq_true, if_false]
    cases hgen : generateSQLQuery c.generatorLLM with
    | error e => simp
    | ok sqlQuery =>
      by_cases hsent : jsStartsWith sqlQuery "ERRO"
      · simp [hsent]
      · simp only [Bool.not_eq_true] at hsent
        simp only [hsent, Bool.false_eq_true, if_false]
        rcases hex : c.executor sqlQuery with ⟨r, issued⟩
        cases r with
        | error e => simp
        | ok rows =>
          cases hfmt : formatResponse question rows c.formatterLLM with
          | error e => simp [hfmt]
          | ok formatted => simp [hfmt]
  · simp only [Bool.not_eq_true] at hneeds
    simp [hneeds]

/-- C4 witness: with the classifier demanding a lookup and the generator's
model call throwing, the outcome is the converted catch-all failure. -/
theorem processMessage_outcome_invariant_witness :
    (processMessage "Quantos professores?" generatorFailsCollab).1.type =
        some "error" ∨
    ∃ e, (processMessage "Quantos professores?" generatorFailsCollab).1 =
      ⟨false, "Erro interno ao processar IA.", none, none, none, some e⟩ :=
  (processMessage_outcome_invariant "Quantos professores?"
    generatorFailsCollab).2.2 (by decide)

/-- Helper: `String` append is associative. -/
theorem strAppendAssoc (a b c : String) : (a ++ b) ++ c = a ++ (b ++ c) := by
  rcases a with ⟨la⟩; rcases b with ⟨lb⟩; rcases c with ⟨lc⟩
  show String.mk ((la ++ lb) ++ lc) = String.mk (la ++ (lb ++ lc))
  rw [List.append_assoc]

/-- Helper: appending to a non-empty string never equals the empty
string under boolean equality. -/
theorem prefixedNeEmpty (a b : String) (ha : a.data ≠ []) :
    ((a ++ b) == "") = false := by
  cases hv : (a ++ b) == ""
  · rfl
  · have h := eq_of_beq hv
    rcases a with ⟨la⟩; rcases b with ⟨lb⟩
    have hdata : la ++ lb = ([] : List Char) := congrArg String.data h
    rcases List.append_eq_nil.mp hdata with ⟨h1, -⟩
    exact absurd h1 ha

/-- Helper: every string the current `generateSQLQuery` returns is the
stripped reply, non-empty and not starting with `ERRO`. -/
theorem generateSQLQuery_ok_shape (llm : Except String String) (s : String)
    (h : generateSQLQuery llm = Except.ok s) :
    jsStartsWith s "ERRO" = false ∧ s ≠ "" ∧
    ∀ t, llm = Except.ok t → s = stripReply t := by
  unfold generateSQLQuery at h
  cases llm with
  | error e => simp at h
  | ok text =>
    by_cases hbad : (stripReply text == "" ||
        jsStartsWith (stripReply text) "ERRO") = true
    · simp only [hbad, if_true] at h
      simp at h
    · simp only [hbad, Bool.false_eq_true, if_false] at h
      rw [Bool.or_eq_true, not_or] at hbad
      obtain ⟨hne, herro⟩ := hbad
      simp only [Except.ok.injEq] at h
      subst h
      refine ⟨?_, ?_, ?_⟩
      · cases hv : jsStartsWith (stripReply text) "ERRO"
        · rfl
        · exact absurd hv herro
      · intro hempty
        exact hne (by rw [hempty]; rfl)
      · intro t ht
        cases ht
        rfl

/-- C10: in the current generator module, `generateSQLQuery` throws on an
empty or `ERRO`-prefixed stripped reply, so (a) every string it returns is
non-empty and does not start with `ERRO`; (b) `processMessage`'s sentinel
branch is unreachable — no outcome ever has `type="error"`; (c) a model
refusal (stripped reply starting with `ERRO`) surfaces through the
catch-all `(success:false, message:'Erro interno ao processar IA.',
error: <message>)` with no warehouse call. -/
theorem sentinel_branch_unreachable_current :
    (∀ (llm : Except String String) (s : String),
        generateSQLQuery llm = Except.ok s →
        jsStartsWith s "ERRO" = false ∧ s ≠ "") ∧
    (∀ (question : String) (c : Collab),
        (processMessage question c).1.type ≠ some "error") ∧
    (∀ (question : String) (c : Collab) (t : String),
        requiresDatabaseQuery question c.classifierLLM c.classifierParse = true →
        c.generatorLLM = Except.ok t →
        jsStartsWith (stripReply t) "ERRO" = true →
        processMessage question c =
          (⟨false, "Erro interno ao processar IA.", none, none, none,
            some ("Erro ao gerar query: IA não conseguiu gerar query válida: " ++
              stripReply t)⟩, [])) := by
  have hok : ∀ (llm : Except String String) (s : String),
      generateSQLQuery llm = Except.ok s →
      jsStartsWith s "ERRO" = false ∧ s ≠ "" := fun llm s h =>
    ⟨(generateSQLQuery_ok_shape llm s h).1, (generateSQLQuery_ok_shape llm s h).2.1⟩
  refine ⟨hok, ?_, ?_⟩
  · intro question c
    unfold processMessage
    by_cases hneeds :
        requiresDatabaseQuery question c.classifierLLM c.classifierParse
    · simp only [hneeds, Bool.not_true, Bool.false_eq_true, if_false]
      cases hgen : generateSQLQuery c.generatorLLM with
      | error e => simp
      | ok sqlQuery =>
        have hsent := (hok c.generatorLLM sqlQuery hgen).1
        simp only [hsent, Bool.false_eq_true, if_false]
        rcases hex : c.executor sqlQuery with ⟨r, issued⟩
        cases r with
        | error e => simp
        | ok rows =>
          cases hfmt : formatResponse question rows c.formatterLLM with
          | error e => simp [hfmt]
          | ok formatted => simp [hfmt]
    · simp only [Bool.not_eq_true] at hneeds
      simp [hneeds]
  · intro question c t hneeds hgen hrefusal
    have hne : (stripReply t == "") = false := by
      cases hv : stripReply t == ""
      · rfl
      · rw [eq_of_beq hv] at hrefusal
        exact absurd hrefusal (by decide)
    have hgenerr : generateSQLQuery c.generatorLLM =
        Except.error ("Erro ao gerar query: IA não conseguiu gerar query válida: " ++
          stripReply t) := by
      unfold generateSQLQuery
      rw [hgen]
      simp only [hne, hrefusal, Bool.false_or, if_true, Bool.false_eq_true, if_false]
      rw [prefixedNeEmpty "IA não conseguiu gerar query válida: " (stripReply t)
        (by decide)]
      simp only [Bool.false_eq_true, if_false]
      rw [← strAppendAssoc]
      rfl
    unfold processMessage
    simp only [hneeds, Bool.not_true, Bool.false_eq_true, if_false, hgenerr]

/-- C10 witness: with a classifier demanding a lookup and the model
replying with the refusal sentinel, the outcome is the catch-all failure
and the sentinel branch is skipped. -/
theorem sentinel_branch_unreachable_current_witness :
    processMessage "Quantos professores concluíram?"
        (⟨Except.ok "j",
          fun _ => Except.ok (Json.obj [("requires_db", Json.bool true)]),
          Except.ok "hi", Except.ok "ERRO: sem dados",
          fun _ => (Except.ok [], []), Except.ok "fmt"⟩ : Collab) =
      (⟨false, "Erro interno ao processar IA.", none, none, none,
        some ("Erro ao gerar query: IA não conseguiu gerar query válida: " ++
          stripReply "ERRO: sem dados")⟩, []) :=
  sentinel_branch_unreachable_current.2.2 "Quantos professores concluíram?"
    (⟨Except.ok "j",
      fun _ => Except.ok (Json.obj [("requires_db", Json.bool true)]),
      Except.ok "hi", Except.ok "ERRO: sem dados",
      fun _ => (Except.ok [], []), Except.ok "fmt"⟩ : Collab)
    "ERRO: sem dados" (by decide) rfl (by decide)

/-- C3 counterexample: the claim says `generateSQLQuery` passes the
stripped reply through the validator before returning; it does not.  When
the model replies `DROP TABLE estudantes`, the generator returns that
string unchanged even though `validateQuery` rejects it. -/
theorem generateSQLQuery_skips_validator_counterexample :
    generateSQLQuery (Except.ok "DROP TABLE estudantes") =
      Except.ok "DROP TABLE estudantes" ∧
    validateQuery "DROP TABLE estudantes" = false :=
  ⟨rfl, by decide⟩

/-- C3 amended: `generateSQLQuery` either throws a `GenerationError` or
returns the stripped model reply, guaranteed non-empty and not starting
with `ERRO`; it does not itself invoke the validator — validation of the
returned string happens only later, inside `executeQuery`. -/
theorem generateSQLQuery_amended (llm : Except String String) :
    (∃ e, generateSQLQuery llm = Except.error e) ∨
    (∃ s, generateSQLQuery llm = Except.ok s ∧ s ≠ "" ∧
      jsStartsWith s "ERRO" = false ∧
      ∀ t, llm = Except.ok t → s = stripReply t) := by
  cases hgen : generateSQLQuery llm with
  | error e => exact Or.inl ⟨e, rfl⟩
  | ok s =>
    obtain ⟨herro, hne, hstrip⟩ := generateSQLQuery_ok_shape llm s hgen
    exact Or.inr ⟨s, rfl, hne, herro, hstrip⟩

/-- C3 amended witness: on the reply `SELECT 1` the generator succeeds
with a non-empty, non-sentinel string equal to the stripped reply. -/
theorem generateSQLQuery_amended_witness :
    (∃ e, generateSQLQuery (Except.ok "SELECT 1") = Except.error e) ∨
    (∃ s, generateSQLQuery (Except.ok "SELECT 1") = Except.ok s ∧ s ≠ "" ∧
      jsStartsWith s "ERRO" = false ∧
      ∀ t, (Except.ok "SELECT 1" : Except String String) = Except.ok t →
        s = stripReply t) :=
  generateSQLQuery_amended (Except.ok "SELECT 1")

/-- C5: in the legacy orchestrator (second part of
`src/services/bigquery.js`, where the generator can actually return the
sentinel), whenever the generated string carries the `ERRO:` sentinel and
a lookup was requested, the outcome is exactly `(success:false,
message:<sentinel string>, sql:null, data:null, type:'error')` and no
warehouse call is made. -/
theorem legacyProcessMessage_sentinel_outcome (question : String)
    (c : LegacyCollab) (s : String)
    (hgen : legacyGenerateSQLQuery c.hasApiKey c.generatorLLM = Except.ok s)
    (hsent : containsSubstr s "ERRO:" = true)
    (hneeds : legacyRequiresDatabaseQuery c.classifierLLM = true) :
    legacyProcessMessage question c =
      (⟨false, s, none, none, some "error", none⟩, []) := by
  unfold legacyProcessMessage
  simp only [hneeds, Bool.not_true, Bool.false_eq_true, if_false, hgen,
    hsent, if_true]

/-- A concrete legacy collaborator behaviour: the classifier replies
`SIM`, the generator's model replies with the refusal sentinel from the
prompt. -/
def sentinelLegacyCollab : LegacyCollab :=
  ⟨true, Except.ok "SIM", Except.ok "oi",
   Except.ok "ERRO: Não é possível responder com os dados disponíveis",
   fun _ => (Except.ok [], []), Except.ok "fmt"⟩

/-- C5 witness: the sentinel reply produces exactly the refusal outcome
with no warehouse call. -/
theorem legacyProcessMessage_sentinel_outcome_witness :
    legacyProcessMessage "Qual a nota média?" sentinelLegacyCollab =
      (⟨false, "ERRO: Não é possível responder com os dados disponíveis",
        none, none, some "error", none⟩, []) :=
  legacyProcessMessage_sentinel_outcome "Qual a nota média?"
    sentinelLegacyCollab
    "ERRO: Não é possível responder com os dados disponíveis"
    rfl (by decide) (by decide)

/-- C6: `formatResponse` always succeeds from the caller's point of view:
its result is always `.ok`, and when the LLM call fails it is the
deterministic stringified dump of the raw rows. -/
theorem formatResponse_never_fails (question : String) (rows : List Row)
    (llm : Except String String) :
    (∃ s, formatResponse question rows llm = Except.ok s) ∧
    (∀ e, llm = Except.error e →
      formatResponse question rows llm =
        Except.ok ("Aqui estão os dados encontrados: " ++ stringifyRows rows)) := by
  cases llm with
  | ok t =>
    refine ⟨⟨jsTrim t, rfl⟩, ?_⟩
    intro e he
    exact Except.noConfusion he
  | error e0 =>
    exact ⟨⟨"Aqui estão os dados encontrados: " ++ stringifyRows rows, rfl⟩,
      fun e _ => rfl⟩

/-- C6 witness: with a failing LLM, the formatter returns the stringified
dump of the rows. -/
theorem formatResponse_never_fails_witness :
    formatResponse "Quantos?" [[("total", "5")]] (Except.error "boom") =
      Except.ok ("Aqui estão os dados encontrados: " ++
        stringifyRows [[("total", "5")]]) :=
  (formatResponse_never_fails "Quantos?" [[("total", "5")]]
    (Except.error "boom")).2 "boom" rfl

/-- C7: when the first `getSchema` call performs a successful fetch, a
second call within the one-hour TTL window performs zero further fetches
and returns the cached schema unchanged — at most one network fetch in
total across the two calls. -/
theorem getSchema_cache_hit_within_ttl (t0 t1 : Nat) (sch : DatasetSchema)
    (st0 : SchemaCacheState) (f2 : Except String DatasetSchema)
    (hfetch : (getSchema t0 (Except.ok sch) st0).2.2 = 1)
    (httl : t1 - t0 < SCHEMA_CACHE_DURATION) :
    getSchema t1 f2 (getSchema t0 (Except.ok sch) st0).2.1 =
      (Except.ok sch, (getSchema t0 (Except.ok sch) st0).2.1, 0) := by
  have hstate : (getSchema t0 (Except.ok sch) st0).2.1 = ⟨some sch, some t0⟩ := by
    unfold getSchema at hfetch ⊢
    rcases st0 with ⟨cs, lu⟩
    cases cs with
    | none => rfl
    | some old =>
      cases lu with
      | none => rfl
      | some t =>
        by_cases hhit : t0 - t < SCHEMA_CACHE_DURATION
        · simp [hhit] at hfetch
        · simp [hhit]
  rw [hstate]
  unfold getSchema
  simp [httl]

/-- C7 witness: a fresh cache, one successful fetch at time 0, and a
second call at time 10 that fails to fetch — the second call still
returns the cached schema with zero fetches. -/
theorem getSchema_cache_hit_within_ttl_witness :
    getSchema 10 (Except.error "x")
        (getSchema 0 (Except.ok (⟨"d", "p", []⟩ : DatasetSchema))
          ⟨none, none⟩).2.1 =
      (Except.ok (⟨"d", "p", []⟩ : DatasetSchema),
       (getSchema 0 (Except.ok (⟨"d", "p", []⟩ : DatasetSchema))
         ⟨none, none⟩).2.1, 0) :=
  getSchema_cache_hit_within_ttl 0 10 ⟨"d", "p", []⟩ ⟨none, none⟩
    (Except.error "x") (by decide) (by decide)

/-- C8: when the table listing succeeds, `getDatasetSchema` succeeds and
its tables mapping contains exactly those listed tables whose per-table
schema fetch succeeded, in listing order; failing tables are omitted, not
escalated. -/
theorem getDatasetSchema_partial_failure_best_effort (dataset project : String)
    (names : List String)
    (fetchMeta : String → Except String (List RawField)) :
    getDatasetSchema dataset project (Except.ok names) fetchMeta =
      Except.ok ⟨dataset, project, buildTables fetchMeta names⟩ ∧
    (buildTables fetchMeta names).map Prod.fst =
      names.filter (fun n => exceptIsOk (getTableSchema fetchMeta n)) := by
  refine ⟨rfl, ?_⟩
  induction names with
  | nil => rfl
  | cons n rest ih =>
    simp only [buildTables]
    cases h : getTableSchema fetchMeta n with
    | ok ts => simp [List.filter_cons, exceptIsOk, h, ih]
    | error e => simp [List.filter_cons, exceptIsOk, h, ih]

/-- C9 counterexample: the classifier's reply parses as JSON (`JSON.parse
("\x7b\x7d")` yields the empty object) but is not the expected
boolean-bearing shape; the claim says the result then comes from the
resilience fallback, yet either documented fallback (fail-open `true`, or
the length heuristic with a 42-character question) yields `true`, while
the code returns `false`.  The third conjunct shows the contrast: an
actual throw on the same question does take the fallback, giving
`true`. -/
theorem requiresDatabaseQuery_fallback_counterexample :
    requiresDatabaseQuery "Quantos professores completaram o estágio?"
        (Except.ok "\x7b\x7d") (fun _ => Except.ok (Json.obj [])) = false ∧
    decide ("Quantos professores completaram o estágio?".length > 10) = true ∧
    requiresDatabaseQuery "Quantos professores completaram o estágio?"
        (Except.error "falha") (fun _ => Except.ok (Json.obj [])) = true :=
  ⟨rfl, by decide, by decide⟩

/-- C9 amended: `requiresDatabaseQuery` never propagates an error.  The
message-length heuristic `question.length > 10` is the fallback when the
LLM call throws, when `JSON.parse` throws, or when the parsed value is
`null` (the property access throws); when the reply parses to a JSON
object, the result is whether `requires_db` is exactly the boolean
`true` — `false`, not the fallback, when the field is absent or
non-boolean. -/
theorem requiresDatabaseQuery_amended_fallback (question : String)
    (llm : Except String String) (parse : String → Except String Json) :
    (∀ e, llm = Except.error e →
      requiresDatabaseQuery question llm parse =
        decide (question.length > 10)) ∧
    (∀ t e, llm = Except.ok t → parse t = Except.error e →
      requiresDatabaseQuery question llm parse =
        decide (question.length > 10)) ∧
    (∀ t, llm = Except.ok t → parse t = Except.ok Json.null →
      requiresDatabaseQuery question llm parse =
        decide (question.length > 10)) ∧
    (∀ t kvs, llm = Except.ok t → parse t = Except.ok (Json.obj kvs) →
      requiresDatabaseQuery question llm parse =
        jsonFieldIsTrue kvs "requires_db") := by
  refine ⟨?_, ?_, ?_, ?_⟩
  · intro e he
    subst he
    rfl
  · intro t e ht hp
    subst ht
    unfold requiresDatabaseQuery
    dsimp only
    rw [hp]
  · intro t ht hp
    subst ht
    unfold requiresDatabaseQuery
    dsimp only
    rw [hp]
    rfl
  · intro t kvs ht hp
    subst ht
    unfold requiresDatabaseQuery
    dsimp only
    rw [hp]
    rfl

/-- C9 amended witness: a throwing LLM call on a concrete question gives
the length-heuristic fallback. -/
theorem requiresDatabaseQuery_amended_fallback_witness :
    requiresDatabaseQuery "Liste os professores aprovados"
        (Except.error "falha") (fun _ => Except.ok Json.null) =
      decide ("Liste os professores aprovados".length > 10) :=
  (requiresDatabaseQuery_amended_fallback "Liste os professores aprovados"
    (Except.error "falha") (fun _ => Except.ok Json.null)).1 "falha" rfl

end ChatSearch
